import Mathlib

/-!
Verification of `deploy.py` (Microcap Quant deployment script).

This file shallowly embeds the deployment pipeline of `src/deploy.py`:
the interactive configuration collection (`create_env_file`), the
rendered `.env` document template, the setup pipeline (`main`), the
dependency installation, directory provisioning, smoke test, and the
deployment dispatcher with its four strategies.

External effects (prompts, child processes, the filesystem) are
modelled by an explicit `World` record describing their outcomes, and
the pipeline is a pure function from a `World` to a `Trace` recording
the observable behaviour of a run: exit status, files written,
directories created, messages printed.
-/

namespace Deploy

/-! ## Python string helpers -/

/-- Whitespace characters removed by Python `str.strip()` (ASCII subset;
the script only ever strips console input lines). -/
def isPySpace (c : Char) : Bool :=
  c == ' ' || c == '\t' || c == '\n' || c == '\r' || c == '\u000B' || c == '\u000C'

/-- Python `s.strip()`: remove leading and trailing whitespace. -/
def pyStrip (s : String) : String :=
  String.mk (((s.data.dropWhile isPySpace).reverse.dropWhile isPySpace).reverse)

/-- Python `s or d` for strings: `d` when `s` is empty (falsy), else `s`. -/
def pyOr (s d : String) : String :=
  if s = "" then d else s

/-- Python `s.startswith(p)`: `p` is a prefix of `s`. -/
def pyStartsWith (s p : String) : Bool :=
  p.data.isPrefixOf s.data

/-! ## Configuration document -/

/-- The raw answers returned by each `input()` call in `create_env_file`
(`deploy.py` lines 127-150), in prompt order. -/
structure PromptAnswers where
  openai_key : String
  anthropic_key : String
  groq_key : String
  alpaca_key : String
  alpaca_secret : String
  starting_cash : String
  slack_webhook : String
  email_from : String
  email_to : String
  email_password : String

/-- The local variables of `create_env_file` after stripping and
defaulting (`deploy.py` lines 127-150): the values substituted into the
template. -/
structure EnvValues where
  openai_key : String
  anthropic_key : String
  groq_key : String
  alpaca_key : String
  alpaca_secret : String
  starting_cash : String
  slack_webhook : String
  email_from : String
  email_to : String
  email_password : String

/-- How `create_env_file` computes the substituted values from the raw
prompt answers: every answer is `.strip()`ed; `starting_cash` falls back
to `"1000"` when blank (`... .strip() or "1000"`, line 141); the four
optional notification answers fall back to `""` (lines 147-150). -/
def collectValues (a : PromptAnswers) : EnvValues :=
  { openai_key := pyStrip a.openai_key
    anthropic_key := pyStrip a.anthropic_key
    groq_key := pyStrip a.groq_key
    alpaca_key := pyStrip a.alpaca_key
    alpaca_secret := pyStrip a.alpaca_secret
    starting_cash := pyOr (pyStrip a.starting_cash) "1000"
    slack_webhook := pyOr (pyStrip a.slack_webhook) ""
    email_from := pyOr (pyStrip a.email_from) ""
    email_to := pyOr (pyStrip a.email_to) ""
    email_password := pyOr (pyStrip a.email_password) "" }

/-- One line of the `.env` template: a comment line (including blank
lines, which render as `""`) or a `KEY=value` line. -/
inductive EnvLine where
  | comment (text : String)
  | kv (key value : String)
deriving DecidableEq

/-- Banner comment line of the template: `#` followed by 77 `=` signs. -/
def hr : String := "# " ++ String.mk (List.replicate 77 '=')

set_option maxHeartbeats 1600000 in
/-- The `env_template` string of `deploy.py` lines 32-121, line by line,
with the `.format` substitution already applied (values that are format
placeholders in the source become the corresponding `EnvValues` field;
all other values are the literal text of the template). -/
def envTemplate (v : EnvValues) : List EnvLine :=
  [ .comment hr
  , .comment "# MICROCAP QUANT - ENVIRONMENT VARIABLES"
  , .comment hr
  , .comment ""
  , .comment hr
  , .comment "# AI API KEYS (Required)"
  , .comment hr
  , .comment ""
  , .comment "# OpenAI API Key (Required for GPT-4o and o3 deep research)"
  , .comment "# Get from: https://platform.openai.com/api-keys"
  , .kv "OPENAI_API_KEY" v.openai_key
  , .comment ""
  , .comment "# Anthropic API Key (Optional - backup AI provider)"
  , .comment "# Get from: https://console.anthropic.com/"
  , .kv "ANTHROPIC_API_KEY" v.anthropic_key
  , .comment ""
  , .comment "# Groq API Key (Optional - fast inference backup)"
  , .comment "# Get from: https://console.groq.com/"
  , .kv "GROQ_API_KEY" v.groq_key
  , .comment ""
  , .comment hr
  , .comment "# TRADING API KEYS (Required)"
  , .comment hr
  , .comment ""
  , .comment "# Alpaca Trading API Keys"
  , .comment "# Get from: https://alpaca.markets/ (Paper Trading for testing)"
  , .kv "ALPACA_API_KEY" v.alpaca_key
  , .kv "ALPACA_SECRET_KEY" v.alpaca_secret
  , .comment ""
  , .comment hr
  , .comment "# AI MODEL CONFIGURATION"
  , .comment hr
  , .comment ""
  , .comment "# Primary AI model for daily decisions (16:30 EST cycle)"
  , .kv "AI_PRIMARY_MODEL" "gpt-4o"
  , .comment ""
  , .comment "# Backup AI model if primary fails"
  , .kv "AI_BACKUP_MODEL" "gpt-4"
  , .comment ""
  , .comment "# Deep research model for pre-market analysis (09:30 EST cycle)"
  , .kv "AI_RESEARCH_MODEL" "o3-deep-research-2025-06-26"
  , .comment ""
  , .comment hr
  , .comment "# TRADING CONFIGURATION"
  , .comment hr
  , .comment ""
  , .comment "# Set to false for live trading (default: true for safety)"
  , .kv "PAPER_TRADING" "true"
  , .comment ""
  , .comment "# Starting capital in USD"
  , .kv "STARTING_CASH" v.starting_cash
  , .comment ""
  , .comment "# Maximum position size as percentage (0.15 = 15%)"
  , .kv "MAX_POSITION_PCT" "0.15"
  , .comment ""
  , .comment "# Stop loss percentage (0.15 = 15%)"
  , .kv "STOP_LOSS_PCT" "0.15"
  , .comment ""
  , .comment "# Maximum daily loss before circuit breaker (0.05 = 5%)"
  , .kv "MAX_DAILY_LOSS" "0.05"
  , .comment ""
  , .comment hr
  , .comment "# NOTIFICATIONS (Optional)"
  , .comment hr
  , .comment ""
  , .comment "# Slack webhook for alerts"
  , .kv "SLACK_WEBHOOK" v.slack_webhook
  , .comment ""
  , .comment "# Email notifications (requires SMTP setup)"
  , .kv "EMAIL_ALERTS" "false"
  , .kv "EMAIL_FROM" v.email_from
  , .kv "EMAIL_TO" v.email_to
  , .kv "EMAIL_PASSWORD" v.email_password
  , .comment ""
  , .comment hr
  , .comment "# ADVANCED SETTINGS"
  , .comment hr
  , .comment ""
  , .comment "# Market cap maximum for microcap universe ($300M default)"
  , .kv "MARKET_CAP_MAX" "300000000"
  , .comment ""
  , .comment "# Minimum daily volume filter ($50K default)"
  , .kv "MIN_VOLUME" "50000"
  , .comment ""
  , .comment "# Timezone for trading schedules"
  , .kv "TIMEZONE" "US/Eastern"
  , .comment ""
  , .comment "# Data directory for portfolio and trade logs"
  , .kv "DATA_DIR" "data" ]

/-- Render one template line back to text. -/
def renderLine : EnvLine → String
  | .comment t => t
  | .kv k v => k ++ "=" ++ v

/-- The full text written to `.env`: the rendered template lines joined
by newlines, with the template's trailing newline. -/
def envContent (v : EnvValues) : String :=
  String.intercalate "\n" ((envTemplate v).map renderLine) ++ "\n"

/-- The structured lines of the document written for raw answers `a`. -/
def envDocLines (a : PromptAnswers) : List EnvLine :=
  envTemplate (collectValues a)

/-- The keys of a rendered document, in order. -/
def keysOf (ls : List EnvLine) : List String :=
  ls.filterMap fun l =>
    match l with
    | .kv k _ => some k
    | .comment _ => none

/-- The value rendered for key `k` (first occurrence). -/
def valueOf (k : String) (ls : List EnvLine) : Option String :=
  ls.findSome? fun l =>
    match l with
    | .kv k2 v => if k2 = k then some v else none
    | .comment _ => none

/-- The configuration keys of the documented template, in documented
order (spec section 6: AI credentials, trading credentials, AI model
configuration, trading parameters, notification settings, advanced
settings). -/
def documentedKeys : List String :=
  [ "OPENAI_API_KEY", "ANTHROPIC_API_KEY", "GROQ_API_KEY"
  , "ALPACA_API_KEY", "ALPACA_SECRET_KEY"
  , "AI_PRIMARY_MODEL", "AI_BACKUP_MODEL", "AI_RESEARCH_MODEL"
  , "PAPER_TRADING", "STARTING_CASH", "MAX_POSITION_PCT"
  , "STOP_LOSS_PCT", "MAX_DAILY_LOSS"
  , "SLACK_WEBHOOK", "EMAIL_ALERTS", "EMAIL_FROM", "EMAIL_TO"
  , "EMAIL_PASSWORD"
  , "MARKET_CAP_MAX", "MIN_VOLUME", "TIMEZONE", "DATA_DIR" ]

/-! ## Pipeline model -/

/-- Outcome of running one stage function: it returned normally, it
called `sys.exit(code)`, or it let an exception escape. -/
inductive StageOutcome where
  | ok
  | exited (code : Nat)
  | raised (exc : String)
deriving DecidableEq

/-- Outcome of one `subprocess.run(..., check=True)` call: the command
ran and exited 0; the command ran and exited non-zero (Python raises
`CalledProcessError`); or the executable was not found (Python raises
`FileNotFoundError`). -/
inductive ProcOutcome where
  | success
  | calledProcessError
  | fileNotFound
deriving DecidableEq

/-- Result of the `pip install` child process in `install_dependencies`
(`deploy.py` lines 177-178): its exit code and captured stderr. -/
structure PipResult where
  returncode : Int
  stderr : String

/-- Outcome of the smoke-test child process in `run_tests` (`deploy.py`
lines 192-200): it completed with an exit code and captured stderr, or
`subprocess.run` raised (timeout after 60s, or any other exception);
`except Exception as e` catches every raise, with message `str(e)`. -/
inductive TestRun where
  | completed (returncode : Int) (stderr : String)
  | raisedExc (msg : String)

/-- Outcomes of the three docker invocations of `deploy_docker`
(`deploy.py` lines 264-277): the version probe, the image build, and
the container run. -/
structure DockerEnv where
  probe : ProcOutcome
  build : ProcOutcome
  runC : ProcOutcome

/-- The recognized deployment targets of `show_deployment_options`
(`deploy.py` lines 216-230). -/
inductive DeployTarget where
  | railway
  | render
  | docker
  | localPython
deriving DecidableEq

/-- Everything outside the script that determines a run: the Python
version, the operator's prompt answers, the child-process outcomes, the
deployment choice, the host identity and the pre-existing directories
of the working directory. -/
structure World where
  pythonMajor : Nat
  pythonMinor : Nat
  pythonVersionStr : String
  answers : PromptAnswers
  pip : PipResult
  smoke : TestRun
  choice : String
  docker : DockerEnv
  userName : String
  cwd : String
  fs0 : List String

/-- Separator line `"=" * 60`. -/
def eq60 : String := String.mk (List.replicate 60 '=')

/-- Separator line `"=" * 40`. -/
def eq40 : String := String.mk (List.replicate 40 '=')

/-- `print_banner` (`deploy.py` lines 13-20): the printed lines. -/
def printBanner : List String :=
  [ eq60, "🚀 MICROCAP QUANT - DEPLOYMENT SCRIPT", eq60
  , "AI-Powered Microcap Trading Bot", "Version: 0.2.0", eq60 ]

/-- The condition `sys.version_info < (3, 9)` (`deploy.py` line 24):
Python tuple comparison is lexicographic, so a 5-tuple starting with
`(3, 9)` is greater than `(3, 9)`, and the condition holds exactly when
the major version is below 3, or is 3 with minor version below 9. -/
def versionTooLow (major minor : Nat) : Bool :=
  major < 3 || (major == 3 && minor < 9)

/-- `check_python_version` (`deploy.py` lines 22-28): exits with status
1 when the version is below 3.9, otherwise prints the detected version
and returns. -/
def checkPythonVersion (w : World) : StageOutcome × List String :=
  if versionTooLow w.pythonMajor w.pythonMinor then
    (.exited 1,
      [ "❌ Error: Python 3.9+ required"
      , "Current version: " ++ w.pythonVersionStr ])
  else
    (.ok,
      [ "✅ Python " ++ toString w.pythonMajor ++ "." ++ toString w.pythonMinor
          ++ " detected" ])

/-- The warning printed by `create_env_file` when the OpenAI key does
not start with `sk-` (`deploy.py` line 129). -/
def openaiWarn : String := "⚠️  Warning: OpenAI key should start with sk-"

/-- Result of `create_env_file`: the printed lines and the text written
to `.env`. The function always writes and returns normally. -/
structure CEFResult where
  output : List String
  written : String

/-- `create_env_file` (`deploy.py` lines 30-169): collect the prompt
answers, warn (only) when the stripped OpenAI key lacks the `sk-`
prefix, substitute the collected values into the template and write the
result to `.env`. No answer is rejected; collection never exits. -/
def createEnvFile (a : PromptAnswers) : CEFResult :=
  { output :=
      [ "\n🔑 API KEY SETUP", eq40 ]
      ++ (if pyStartsWith (pyStrip a.openai_key) "sk-" then [] else [openaiWarn])
      ++ [ "\n💰 TRADING CONFIGURATION", eq40
         , "\n📧 NOTIFICATIONS (Optional)", eq40
         , "✅ .env file created successfully" ]
    written := envContent (collectValues a) }

/-- Python `str(e)` for the `CalledProcessError` raised by the pip
install (command list elided). -/
def cpeMessage (rc : Int) : String :=
  "Command returned non-zero exit status " ++ toString rc ++ "."

/-- `install_dependencies` (`deploy.py` lines 171-183): run
`pip install -r requirements.txt` with `check=True`; on exit code 0
report success, on non-zero exit print the error and the captured
stderr and call `sys.exit(1)`. -/
def installDependencies (p : PipResult) : StageOutcome × List String :=
  if p.returncode = 0 then
    (.ok, [ "\n📦 INSTALLING DEPENDENCIES", eq40
          , "✅ Dependencies installed successfully" ])
  else
    (.exited 1,
      [ "\n📦 INSTALLING DEPENDENCIES", eq40
      , "❌ Error installing dependencies: " ++ cpeMessage p.returncode
      , "Error output: " ++ p.stderr ])

/-- `run_tests` (`deploy.py` lines 185-200): run the health-check child
process with a 60-second timeout; exit code 0 reports success, non-zero
reports a warning with the captured stderr, and any raised exception
(timeout included) is caught by `except Exception` and reported as a
warning. The stage never exits and never re-raises. -/
def runTests (t : TestRun) : StageOutcome × List String :=
  let header := [ "\n🧪 RUNNING TESTS", eq40 ]
  match t with
  | .completed rc err =>
      if rc = 0 then
        (.ok, header ++ [ "✅ AI connection test passed" ])
      else
        (.ok, header ++ [ "⚠️  AI test failed - check your API keys"
                        , "Error: " ++ err ])
  | .raisedExc msg =>
      (.ok, header ++ [ "⚠️  Test failed: " ++ msg ])

/-- `Path(d).mkdir(exist_ok=True)`: add the directory when absent; a
present directory is left alone with no error. -/
def insertDir (d : String) (fs : List String) : List String :=
  if d ∈ fs then fs else fs ++ [d]

/-- `create_directories` (`deploy.py` lines 202-210): ensure `data`,
`logs` and `reports` exist, in that order; returns the new directory
set and the printed lines. Total: the operation never fails. -/
def createDirectories (fs : List String) : List String × List String :=
  (insertDir "reports" (insertDir "logs" (insertDir "data" fs)),
   [ "\n📁 CREATING DIRECTORIES", eq40
   , "✅ Created data/", "✅ Created logs/", "✅ Created reports/" ])

/-- `deploy_railway` (`deploy.py` lines 234-245): prints instructions
only. -/
def deployRailway : List String :=
  [ "\n🚂 RAILWAY DEPLOYMENT", eq40
  , "1. Install Railway CLI: npm install -g @railway/cli"
  , "2. Login: railway login"
  , "3. Deploy: railway up"
  , "\nOr use the web interface:"
  , "1. Go to https://railway.app"
  , "2. Connect your GitHub repository"
  , "3. Add environment variables from .env file"
  , "4. Deploy!" ]

/-- `deploy_render` (`deploy.py` lines 247-256): prints instructions
only. -/
def deployRender : List String :=
  [ "\n🎨 RENDER DEPLOYMENT", eq40
  , "1. Go to https://render.com"
  , "2. Connect your GitHub repository"
  , "3. Create a new Web Service"
  , "4. Add environment variables from .env file"
  , "5. Set build command: pip install -r requirements.txt"
  , "6. Set start command: python -m auto_trader.automated_trader" ]

/-- Result of `deploy_docker`: stage outcome, whether the build and the
container run were attempted, and the printed lines. -/
structure DockerResult where
  outcome : StageOutcome
  buildAttempted : Bool
  runAttempted : Bool
  output : List String

/-- `deploy_docker` (`deploy.py` lines 258-282): probe
`docker --version`, then build the image, then start the container,
each with `check=True`. The `except` clause catches only
`subprocess.CalledProcessError`; a `FileNotFoundError` (docker binary
absent) escapes the function uncaught. -/
def deployDocker (d : DockerEnv) : DockerResult :=
  let header := [ "\n🐳 DOCKER DEPLOYMENT", eq40 ]
  let caught := [ "❌ Docker not available or failed"
                , "Install Docker from https://docker.com" ]
  match d.probe with
  | .fileNotFound =>
      { outcome := .raised "FileNotFoundError", buildAttempted := false
        runAttempted := false, output := header }
  | .calledProcessError =>
      { outcome := .ok, buildAttempted := false, runAttempted := false
        output := header ++ caught }
  | .success =>
      match d.build with
      | .fileNotFound =>
          { outcome := .raised "FileNotFoundError", buildAttempted := true
            runAttempted := false, output := header ++ [ "✅ Docker detected" ] }
      | .calledProcessError =>
          { outcome := .ok, buildAttempted := true, runAttempted := false
            output := header ++ [ "✅ Docker detected" ] ++ caught }
      | .success =>
          match d.runC with
          | .fileNotFound =>
              { outcome := .raised "FileNotFoundError", buildAttempted := true
                runAttempted := true
                output := header ++ [ "✅ Docker detected", "✅ Docker image built" ] }
          | .calledProcessError =>
              { outcome := .ok, buildAttempted := true, runAttempted := true
                output := header ++ [ "✅ Docker detected", "✅ Docker image built" ]
                          ++ caught }
          | .success =>
              { outcome := .ok, buildAttempted := true, runAttempted := true
                output := header ++ [ "✅ Docker detected", "✅ Docker image built"
                                    , "✅ Docker container started" ] }

/-- The systemd unit text written by `deploy_local` (`deploy.py` lines
290-305), with `user` and `cwd` substituted. -/
def serviceContent (user cwd : String) : String :=
  "[Unit]\nDescription=Microcap Quant Trading Bot\nAfter=network.target\n\n"
  ++ "[Service]\nType=simple\nUser=" ++ user
  ++ "\nWorkingDirectory=" ++ cwd
  ++ "\nEnvironment=PATH=" ++ cwd ++ "/venv/bin"
  ++ "\nExecStart=" ++ cwd ++ "/venv/bin/python -m auto_trader.automated_trader"
  ++ "\nRestart=always\nRestartSec=10\n\n"
  ++ "[Install]\nWantedBy=multi-user.target\n"

/-- `deploy_local` (`deploy.py` lines 284-314): writes the unit file
and prints manual activation instructions. -/
def deployLocal (user cwd : String) : String × List String :=
  (serviceContent user cwd,
   [ "\n💻 LOCAL DEPLOYMENT", eq40
   , "✅ Systemd service file created: microcap-quant.service"
   , "\nTo start the service:"
   , "sudo cp microcap-quant.service /etc/systemd/system/"
   , "sudo systemctl enable microcap-quant"
   , "sudo systemctl start microcap-quant" ])

/-- Result of the deployment dispatcher: stage outcome, which strategy
was invoked (none for an unrecognized choice), whether the docker build
and run were attempted, the unit file written (if any), and the printed
lines. -/
structure DispatchResult where
  outcome : StageOutcome
  action : Option DeployTarget
  buildAttempted : Bool
  runAttempted : Bool
  serviceFile : Option String
  output : List String

/-- The menu printed by `show_deployment_options` (`deploy.py` lines
214-219). -/
def deployMenu : List String :=
  [ "\n🚀 DEPLOYMENT OPTIONS", eq40
  , "1. Railway (Recommended - Zero maintenance)"
  , "2. Render (Alternative cloud platform)"
  , "3. Local Docker"
  , "4. Local Python" ]

/-- `show_deployment_options` (`deploy.py` lines 212-232): strip the
choice; `"1"`-`"4"` invoke the corresponding strategy, anything else
prints `Invalid choice. Exiting.` and returns with no action (no exit,
no exception). -/
def showDeploymentOptions (w : World) : DispatchResult :=
  let c := pyStrip w.choice
  if c = "1" then
    { outcome := .ok, action := some .railway, buildAttempted := false
      runAttempted := false, serviceFile := none
      output := deployMenu ++ deployRailway }
  else if c = "2" then
    { outcome := .ok, action := some .render, buildAttempted := false
      runAttempted := false, serviceFile := none
      output := deployMenu ++ deployRender }
  else if c = "3" then
    let dr := deployDocker w.docker
    { outcome := dr.outcome, action := some .docker
      buildAttempted := dr.buildAttempted, runAttempted := dr.runAttempted
      serviceFile := none, output := deployMenu ++ dr.output }
  else if c = "4" then
    let (svc, out) := deployLocal w.userName w.cwd
    { outcome := .ok, action := some .localPython, buildAttempted := false
      runAttempted := false, serviceFile := some svc
      output := deployMenu ++ out }
  else
    { outcome := .ok, action := none, buildAttempted := false
      runAttempted := false, serviceFile := none
      output := deployMenu ++ [ "Invalid choice. Exiting." ] }

/-- How a run of `main` ended: normal return (process exit status 0),
an explicit `sys.exit(code)`, or an uncaught exception (process exit
status 1 with a traceback). -/
inductive ExitStatus where
  | normal
  | exitCalled (code : Nat)
  | uncaught (exc : String)
deriving DecidableEq

/-- The observable behaviour of one run of `main`. -/
structure Trace where
  status : ExitStatus
  envFile : Option String
  dirs : List String
  smokeRan : Bool
  dispatchReached : Bool
  action : Option DeployTarget
  serviceFile : Option String
  buildAttempted : Bool
  runAttempted : Bool
  completionReported : Bool
  output : List String

/-- The closing lines of `main` (`deploy.py` lines 338-350), printed
only when the pipeline reaches its end without exiting or raising. -/
def completionLines : List String :=
  [ "\n🎉 DEPLOYMENT COMPLETE!", eq40
  , "Your Microcap Quant bot is ready to trade!"
  , "\n📊 Monitor your bot:"
  , "- Check logs in logs/ directory"
  , "- View portfolio in data/ directory"
  , "- Review performance reports"
  , "\n⚠️  IMPORTANT:"
  , "- Bot starts in PAPER TRADING mode for safety"
  , "- Set PAPER_TRADING=false in .env for live trading"
  , "- Monitor first few trades closely"
  , "- All trades are logged for review" ]

/-- `main` (`deploy.py` lines 316-350): banner, version check (may
exit), config collection (always writes `.env`), dependency install
(may exit), directory provisioning, smoke test (never exits),
deployment dispatch (may let an exception escape), completion report. -/
def runMain (w : World) : Trace :=
  match checkPythonVersion w with
  | (.exited c, out1) =>
      { status := .exitCalled c, envFile := none, dirs := w.fs0
        smokeRan := false, dispatchReached := false, action := none
        serviceFile := none, buildAttempted := false, runAttempted := false
        completionReported := false, output := printBanner ++ out1 }
  | (_, out1) =>
      let cef := createEnvFile w.answers
      match installDependencies w.pip with
      | (.exited c, out3) =>
          { status := .exitCalled c, envFile := some cef.written, dirs := w.fs0
            smokeRan := false, dispatchReached := false, action := none
            serviceFile := none, buildAttempted := false, runAttempted := false
            completionReported := false
            output := printBanner ++ out1 ++ cef.output ++ out3 }
      | (_, out3) =>
          let (fs1, out4) := createDirectories w.fs0
          let (_, out5) := runTests w.smoke
          let dr := showDeploymentOptions w
          match dr.outcome with
          | .raised exc =>
              { status := .uncaught exc, envFile := some cef.written
                dirs := fs1, smokeRan := true, dispatchReached := true
                action := dr.action, serviceFile := dr.serviceFile
                buildAttempted := dr.buildAttempted
                runAttempted := dr.runAttempted, completionReported := false
                output := printBanner ++ out1 ++ cef.output ++ out3 ++ out4
                          ++ out5 ++ dr.output }
          | _ =>
              { status := .normal, envFile := some cef.written
                dirs := fs1, smokeRan := true, dispatchReached := true
                action := dr.action, serviceFile := dr.serviceFile
                buildAttempted := dr.buildAttempted
                runAttempted := dr.runAttempted, completionReported := true
                output := printBanner ++ out1 ++ cef.output ++ out3 ++ out4
                          ++ out5 ++ dr.output ++ completionLines }

/-! ## Concrete runs -/

/-- A well-formed set of prompt answers. -/
def sampleAnswers : PromptAnswers :=
  ⟨"sk-test", "", "", "AKXYZ", "SECRETXYZ", "", "", "", "", ""⟩

/-- Every prompt answered with the empty string. -/
def emptyAnswers : PromptAnswers :=
  ⟨"", "", "", "", "", "", "", "", "", ""⟩

/-- Answers whose starting-capital input carries surrounding spaces. -/
def padAnswers : PromptAnswers :=
  { sampleAnswers with starting_cash := " 500 " }

/-- Answers whose OpenAI key lacks the `sk-` prefix. -/
def badKeyAnswers : PromptAnswers :=
  { sampleAnswers with openai_key := "abc" }

/-- A benign world: Python 3.12, pip succeeds, the smoke test passes,
the operator picks Railway, docker would work, empty directory. -/
def baseWorld : World :=
  { pythonMajor := 3, pythonMinor := 12, pythonVersionStr := "3.12.0"
    answers := sampleAnswers
    pip := ⟨0, ""⟩
    smoke := .completed 0 ""
    choice := "1"
    docker := ⟨.success, .success, .success⟩
    userName := "trader"
    cwd := "/home/trader/microcap-quant"
    fs0 := [] }

/-- A world running Python 3.8, below the documented minimum. -/
def w38 : World :=
  { baseWorld with pythonMajor := 3, pythonMinor := 8, pythonVersionStr := "3.8.10" }

/-- A world whose operator answers every prompt with the empty string. -/
def wEmptyAnswers : World :=
  { baseWorld with answers := emptyAnswers }

/-- A world where `pip install` exits 1 with stderr `boom`. -/
def wPipFail : World :=
  { baseWorld with pip := ⟨1, "boom"⟩ }

/-- A world where the smoke test exits 1 with stderr `authfail`. -/
def wSmokeFail : World :=
  { baseWorld with smoke := .completed 1 "authfail" }

/-- A world whose operator types an unrecognized deployment choice. -/
def wBadChoice : World :=
  { baseWorld with choice := "5" }

/-- A world whose operator picks Docker with no docker binary on the
PATH: the probe raises `FileNotFoundError`. -/
def wDockerAbsent : World :=
  { baseWorld with choice := "3", docker := ⟨.fileNotFound, .success, .success⟩ }

/-! ## Theorems -/

/-- Claim C3: for every combination of operator inputs, the rendered
configuration document contains each documented key exactly once, in
documented order, every key present even when its value is empty. -/
theorem C3_keys_exactly_once_in_order (a : PromptAnswers) :
    keysOf (envDocLines a) = documentedKeys ∧ documentedKeys.Nodup :=
  ⟨rfl, by decide⟩

/-- Claim C10: for every combination of operator inputs, the rendered
document fixes the non-prompted keys to constants: `PAPER_TRADING=true`,
`EMAIL_ALERTS=false`, `MAX_POSITION_PCT=0.15`, `STOP_LOSS_PCT=0.15`,
`MAX_DAILY_LOSS=0.05`; no operator input can alter them. -/
theorem C10_fixed_settings (a : PromptAnswers) :
    valueOf "PAPER_TRADING" (envDocLines a) = some "true" ∧
    valueOf "EMAIL_ALERTS" (envDocLines a) = some "false" ∧
    valueOf "MAX_POSITION_PCT" (envDocLines a) = some "0.15" ∧
    valueOf "STOP_LOSS_PCT" (envDocLines a) = some "0.15" ∧
    valueOf "MAX_DAILY_LOSS" (envDocLines a) = some "0.05" :=
  ⟨rfl, rfl, rfl, rfl, rfl⟩

/-- Claim C5, counterexample: the starting-capital input `" 500 "` is
non-empty, yet the rendered value is `"500"`, not the literal input as
supplied — the code strips surrounding whitespace first. -/
theorem C5_starting_cash_cx :
    padAnswers.starting_cash = " 500 " ∧ (" 500 " : String) ≠ "" ∧
    valueOf "STARTING_CASH" (envDocLines padAnswers) = some "500" ∧
    ("500" : String) ≠ " 500 " := by
  refine ⟨rfl, by decide, by decide, by decide⟩

/-- Claim C5 as amended: the rendered `STARTING_CASH` value is `"1000"`
when the input strips to the empty string, and otherwise equals the
input with surrounding whitespace removed. -/
theorem C5_starting_cash_amended (a : PromptAnswers) :
    valueOf "STARTING_CASH" (envDocLines a)
      = some (if pyStrip a.starting_cash = "" then "1000"
              else pyStrip a.starting_cash) :=
  rfl

/-- Claim C1, counterexample: a run whose operator answers every prompt
with the empty string reaches the point where the document is written,
and the written document renders each required key with the empty
value — non-emptiness is not enforced. -/
theorem C1_required_nonempty_cx :
    (runMain wEmptyAnswers).envFile = some (envContent (collectValues emptyAnswers)) ∧
    valueOf "OPENAI_API_KEY" (envDocLines emptyAnswers) = some "" ∧
    valueOf "ALPACA_API_KEY" (envDocLines emptyAnswers) = some "" ∧
    valueOf "ALPACA_SECRET_KEY" (envDocLines emptyAnswers) = some "" :=
  ⟨rfl, rfl, rfl, rfl⟩

/-- Claim C1 as amended: every run that reaches the write renders each
required key with exactly the operator-supplied (stripped) value, which
may be empty; a value without the expected `sk-` prefix only produces a
warning, and collection always writes the document and returns. -/
theorem C1_required_keys_amended (a : PromptAnswers) :
    valueOf "OPENAI_API_KEY" (envDocLines a) = some (pyStrip a.openai_key) ∧
    valueOf "ALPACA_API_KEY" (envDocLines a) = some (pyStrip a.alpaca_key) ∧
    valueOf "ALPACA_SECRET_KEY" (envDocLines a) = some (pyStrip a.alpaca_secret) ∧
    (createEnvFile a).written = envContent (collectValues a) ∧
    (pyStartsWith (pyStrip a.openai_key) "sk-" = false →
      openaiWarn ∈ (createEnvFile a).output) := by
  refine ⟨rfl, rfl, rfl, rfl, fun h => ?_⟩
  simp [createEnvFile, h]

/-- Claim C1, witness: with the malformed OpenAI key `"abc"` the
warning is emitted (and, per the theorem, collection still writes). -/
theorem C1_required_keys_witness :
    openaiWarn ∈ (createEnvFile badKeyAnswers).output :=
  (C1_required_keys_amended badKeyAnswers).2.2.2.2 (by decide)

/-- Claim C4: when the Python version is below 3.9, the process exits
with status 1 before any configuration document is written and before
any directory is created. -/
theorem C4_version_abort (w : World)
    (h : versionTooLow w.pythonMajor w.pythonMinor = true) :
    (runMain w).status = .exitCalled 1 ∧
    (runMain w).envFile = none ∧
    (runMain w).dirs = w.fs0 := by
  simp [runMain, checkPythonVersion, h]

/-- Claim C4, witness: on Python 3.8 the run exits 1 with no `.env`
written and no directory created. -/
theorem C4_version_abort_witness :
    (runMain w38).status = .exitCalled 1 ∧
    (runMain w38).envFile = none ∧
    (runMain w38).dirs = w38.fs0 :=
  C4_version_abort w38 (by decide)

/-- Claim C6: when `pip install` exits non-zero, the run prints the
captured stderr and exits 1; directory provisioning, the smoke test and
the deployment dispatch never run, and completion is never reported. -/
theorem C6_install_failure_aborts (w : World)
    (hv : versionTooLow w.pythonMajor w.pythonMinor = false)
    (hp : w.pip.returncode ≠ 0) :
    (runMain w).status = .exitCalled 1 ∧
    (runMain w).dirs = w.fs0 ∧
    (runMain w).smokeRan = false ∧
    (runMain w).dispatchReached = false ∧
    (runMain w).completionReported = false ∧
    ("Error output: " ++ w.pip.stderr) ∈ (runMain w).output := by
  simp [runMain, checkPythonVersion, hv, installDependencies, hp]

/-- Claim C6, witness: with pip failing (exit 1, stderr `boom`) the run
exits 1, nothing after installation runs, and the stderr is printed. -/
theorem C6_install_failure_aborts_witness :
    (runMain wPipFail).status = .exitCalled 1 ∧
    (runMain wPipFail).dirs = wPipFail.fs0 ∧
    (runMain wPipFail).smokeRan = false ∧
    (runMain wPipFail).dispatchReached = false ∧
    (runMain wPipFail).completionReported = false ∧
    ("Error output: " ++ wPipFail.pip.stderr) ∈ (runMain wPipFail).output :=
  C6_install_failure_aborts wPipFail (by decide) (by decide)

/-- Claim C7: the smoke-test stage never terminates the process — it
returns `ok` for every child-process outcome — and in every run that
reaches it the pipeline advances to the deployment dispatch; on a
non-zero exit the captured stderr is surfaced as a warning. -/
theorem C7_smoke_failure_nonfatal (w : World)
    (hv : versionTooLow w.pythonMajor w.pythonMinor = false)
    (hp : w.pip.returncode = 0) :
    (runTests w.smoke).1 = .ok ∧
    (runMain w).smokeRan = true ∧
    (runMain w).dispatchReached = true ∧
    (∀ rc err, w.smoke = .completed rc err → rc ≠ 0 →
      ("Error: " ++ err) ∈ (runMain w).output) := by
  refine ⟨?_, ?_, ?_, ?_⟩
  · cases w.smoke with
    | completed rc err => by_cases h : rc = 0 <;> simp [runTests, h]
    | raisedExc msg => simp [runTests]
  · simp only [runMain, checkPythonVersion, hv, if_false, installDependencies, hp,
      if_true, Bool.false_eq_true]
    split <;> rfl
  · simp only [runMain, checkPythonVersion, hv, if_false, installDependencies, hp,
      if_true, Bool.false_eq_true]
    split <;> rfl
  · intro rc err hs hrc
    simp only [runMain, checkPythonVersion, hv, if_false, installDependencies, hp,
      if_true, Bool.false_eq_true]
    split <;> simp [hs, runTests, hrc]

/-- Claim C7, witness: with the smoke test exiting 1 (stderr
`authfail`), the stage returns `ok`, the dispatch is reached, and the
diagnostic is printed. -/
theorem C7_smoke_failure_nonfatal_witness :
    (runTests wSmokeFail.smoke).1 = .ok ∧
    (runMain wSmokeFail).smokeRan = true ∧
    (runMain wSmokeFail).dispatchReached = true ∧
    ("Error: " ++ "authfail") ∈ (runMain wSmokeFail).output := by
  obtain ⟨h1, h2, h3, h4⟩ := C7_smoke_failure_nonfatal wSmokeFail (by decide) (by decide)
  exact ⟨h1, h2, h3, h4 1 "authfail" rfl (by decide)⟩

/-- Claim C8: a deployment choice outside `"1"`-`"4"` makes the
dispatcher take no action — no strategy invoked, no docker call, no
unit file written — and return normally, and the run still reports
overall completion with a normal exit. -/
theorem C8_invalid_choice_noop (w : World)
    (hv : versionTooLow w.pythonMajor w.pythonMinor = false)
    (hp : w.pip.returncode = 0)
    (h1 : pyStrip w.choice ≠ "1") (h2 : pyStrip w.choice ≠ "2")
    (h3 : pyStrip w.choice ≠ "3") (h4 : pyStrip w.choice ≠ "4") :
    (runMain w).status = .normal ∧
    (runMain w).action = none ∧
    (runMain w).serviceFile = none ∧
    (runMain w).buildAttempted = false ∧
    (runMain w).runAttempted = false ∧
    (runMain w).completionReported = true ∧
    "Invalid choice. Exiting." ∈ (runMain w).output := by
  simp [runMain, checkPythonVersion, hv, installDependencies, hp,
    showDeploymentOptions, h1, h2, h3, h4]

/-- Claim C8, witness: with choice `"5"` the dispatcher does nothing,
the run exits normally and completion is reported. -/
theorem C8_invalid_choice_noop_witness :
    (runMain wBadChoice).status = .normal ∧
    (runMain wBadChoice).action = none ∧
    (runMain wBadChoice).serviceFile = none ∧
    (runMain wBadChoice).buildAttempted = false ∧
    (runMain wBadChoice).runAttempted = false ∧
    (runMain wBadChoice).completionReported = true ∧
    "Invalid choice. Exiting." ∈ (runMain wBadChoice).output :=
  C8_invalid_choice_noop wBadChoice (by decide) (by decide)
    (by decide) (by decide) (by decide) (by decide)

theorem mem_insertDir_self (d : String) (fs : List String) :
    d ∈ insertDir d fs := by
  by_cases h : d ∈ fs <;> simp [insertDir, h]

theorem insertDir_eq_of_mem {d : String} {fs : List String} (h : d ∈ fs) :
    insertDir d fs = fs := by
  simp [insertDir, h]

theorem mem_insertDir_of_mem {a : String} {fs : List String} (d : String)
    (h : a ∈ fs) : a ∈ insertDir d fs := by
  by_cases hd : d ∈ fs <;> simp [insertDir, hd, h]

theorem nodup_insertDir {fs : List String} (d : String) (h : fs.Nodup) :
    (insertDir d fs).Nodup := by
  by_cases hd : d ∈ fs <;>
    simp [insertDir, hd, h, List.nodup_append, List.disjoint_singleton]

/-- Claim C9: directory provisioning is idempotent — a second
invocation on the result of the first changes nothing — each of the
three directories is present afterwards, and (the operation being a
total function) no error is possible; when the starting state has no
duplicates, neither does the result. -/
theorem C9_provisioning_idempotent (fs : List String) :
    (createDirectories (createDirectories fs).1).1 = (createDirectories fs).1 ∧
    "data" ∈ (createDirectories fs).1 ∧
    "logs" ∈ (createDirectories fs).1 ∧
    "reports" ∈ (createDirectories fs).1 ∧
    (fs.Nodup → ((createDirectories fs).1).Nodup) := by
  have hdata : "data" ∈ (createDirectories fs).1 :=
    mem_insertDir_of_mem _ (mem_insertDir_of_mem _ (mem_insertDir_self _ _))
  have hlogs : "logs" ∈ (createDirectories fs).1 :=
    mem_insertDir_of_mem _ (mem_insertDir_self _ _)
  have hreports : "reports" ∈ (createDirectories fs).1 :=
    mem_insertDir_self _ _
  refine ⟨?_, hdata, hlogs, hreports, ?_⟩
  · show insertDir "reports" (insertDir "logs" (insertDir "data"
        (createDirectories fs).1)) = (createDirectories fs).1
    rw [insertDir_eq_of_mem hdata, insertDir_eq_of_mem hlogs,
      insertDir_eq_of_mem hreports]
  · intro h
    exact nodup_insertDir _ (nodup_insertDir _ (nodup_insertDir _ h))

/-- Claim C9, witness: starting from an empty (duplicate-free)
directory set, the double invocation equals the single one and the
result has no duplicates. -/
theorem C9_provisioning_idempotent_witness :
    (createDirectories (createDirectories []).1).1 = (createDirectories []).1 ∧
    ((createDirectories ([] : List String)).1).Nodup :=
  ⟨(C9_provisioning_idempotent []).1,
   (C9_provisioning_idempotent []).2.2.2.2 (by decide)⟩

/-- Claim C2, evaluation at the failing input: with the docker binary
absent the probe raises `FileNotFoundError`, which `deploy_docker` does
not catch — the strategy neither attempts the build nor the run, but it
does not return normally: the exception escapes, the run aborts
uncaught and completion is never reported. With a probe that exits
non-zero (`CalledProcessError`) the strategy does return normally
without build or run, as the claim describes. -/
theorem C2_docker_probe_eval :
    (deployDocker ⟨.fileNotFound, .success, .success⟩).outcome
      = .raised "FileNotFoundError" ∧
    (deployDocker ⟨.fileNotFound, .success, .success⟩).buildAttempted = false ∧
    (deployDocker ⟨.fileNotFound, .success, .success⟩).runAttempted = false ∧
    (deployDocker ⟨.calledProcessError, .success, .success⟩).outcome = .ok ∧
    (deployDocker ⟨.calledProcessError, .success, .success⟩).buildAttempted = false ∧
    (deployDocker ⟨.calledProcessError, .success, .success⟩).runAttempted = false ∧
    (runMain wDockerAbsent).status = .uncaught "FileNotFoundError" ∧
    (runMain wDockerAbsent).completionReported = false := by
  refine ⟨rfl, rfl, rfl, rfl, rfl, rfl, ?_, ?_⟩ <;> decide

end Deploy
